import Mathlib

/-!
Shallow embedding of `src/exporter.py` (iDrive e2 Prometheus exporter with
health-check endpoint).

Modelling choices:
* Object last-modified timestamps (`obj['LastModified'].timestamp()`) are
  modelled as `Nat` epoch seconds; the code initialises its running maximum
  to the sentinel `0` and compares with `>`.
* A listing page is a record with an optional `Contents` list, mirroring the
  `if 'Contents' in page` check.
* The store (boto3 paginator) is modelled as a function from bucket name
  to either a page list or an exception value (`NoSuchBucket` or a generic
  exception carrying a message); the `try/except` blocks of the source map
  to a `match` on that value.
* Python dicts (`health_status['buckets']` and labelled Prometheus gauges)
  are modelled as association lists with in-place overwrite and append-on-new,
  matching dict insertion-order semantics.
* Wall-clock quantities (`time.time()` durations, `datetime.now()`) are
  threaded as an explicit `now : Nat` parameter; the float-valued
  `scrape_duration_seconds` gauge and the derived `size_gb` presentation
  field are not modelled (no claim mentions them).
-/

namespace IdriveExporter

/-- One object descriptor from a listing page: `obj['Size']` and
`obj['LastModified'].timestamp()` (epoch seconds). -/
structure S3Object where
  size : Nat
  lastModified : Nat
  deriving DecidableEq, Repr

/-- One page from `paginator.paginate(...)`; `contents = none` models a page
without a `'Contents'` key. -/
structure Page where
  contents : Option (List S3Object)
  deriving DecidableEq, Repr

/-- The exception raised by a listing call: `s3.exceptions.NoSuchBucket` or
any other exception with its message (`str(e)`). -/
inductive StoreError where
  | noSuchBucket
  | other (msg : String)
  deriving DecidableEq, Repr

/-- Result of draining `paginator.paginate(Bucket=name)`: either the full
page sequence or the exception that escaped the listing loop. -/
abbrev ListingResult := Except StoreError (List Page)

/-- One entry of `health_status['buckets']`: the success dict carries
`objects`, `size_bytes` and a last-modified value (`none` renders as the
string `"N/A"`), the failure dict carries the `error` string; both carry
`last_check`. (`size_gb` and `scrape_duration_seconds` are presentation
fields derived from modelled / unmodelled data and are omitted.) -/
inductive BucketEntry where
  | success (objects : Nat) (sizeBytes : Nat) (lastModified : Option Nat) (lastCheck : Nat)
  | failure (error : String) (lastCheck : Nat)
  deriving DecidableEq, Repr

/-- Python-dict association list lookup (`d.get(k)`). -/
def lookupAssoc {α : Type} : List (String × α) → String → Option α
  | [], _ => none
  | (k, v) :: rest, name => if k = name then some v else lookupAssoc rest name

/-- Python-dict association list update (`d[k] = v`): overwrite in place if the
key is present, append otherwise. -/
def setAssoc {α : Type} : List (String × α) → String → α → List (String × α)
  | [], name, v => [(name, v)]
  | (k, w) :: rest, name, v =>
      if k = name then (k, v) :: rest else (k, w) :: setAssoc rest name v

/-- The mutable process state touched by the collection functions: the
`health_status` dict (fields `healthy`, `last_successful_scrape`, `buckets`)
and the labelled Prometheus gauges set by `collect_bucket_metrics` /
`collect_all_metrics`. -/
structure ExporterState where
  healthy : Bool
  lastSuccessfulScrape : Option Nat
  buckets : List (String × BucketEntry)
  gaugeBucketSize : List (String × Nat)
  gaugeObjectCount : List (String × Nat)
  gaugeLastModified : List (String × Nat)
  gaugeScrapeSuccess : List (String × Nat)
  gaugeBucketHealth : List (String × Nat)
  gaugeExporterHealth : Nat
  deriving DecidableEq, Repr

/-- The state at process start: `health_status = {'healthy': True,
'last_successful_scrape': None, 'buckets': {}}`, all gauges at their
Prometheus default 0 with no labelled children. -/
def initialState : ExporterState where
  healthy := true
  lastSuccessfulScrape := none
  buckets := []
  gaugeBucketSize := []
  gaugeObjectCount := []
  gaugeLastModified := []
  gaugeScrapeSuccess := []
  gaugeBucketHealth := []
  gaugeExporterHealth := 0

/-- Python `str.strip()` (no argument): remove leading and trailing
whitespace. Implemented structurally on the character list so that it
evaluates by kernel reduction. -/
def strip (s : String) : String :=
  String.mk (((s.data.dropWhile Char.isWhitespace).reverse.dropWhile
    Char.isWhitespace).reverse)

/-- Python `str.split(',')` on the character list: splitting the empty
string gives `[""]`, and every comma separates two (possibly empty)
fields. -/
def splitOnComma : List Char → List (List Char)
  | [] => [[]]
  | c :: rest =>
      let r := splitOnComma rest
      if c = ',' then [] :: r
      else
        match r with
        | [] => [[c]]
        | w :: ws => (c :: w) :: ws

/-- A state agreeing with `initialState` on the per-bucket map but with the
opposite stored flag and a recorded pass timestamp. -/
def flippedState : ExporterState :=
  { initialState with
      healthy := false
      lastSuccessfulScrape := some 9 }

/-- Inner loop body of `collect_bucket_metrics`: for one object, add its size
to the running total, bump the counter, and replace the running maximum when
the object's timestamp strictly exceeds it. Accumulator order:
`(total_size, total_objects, latest_modified)`. -/
def objStep (acc : Nat × Nat × Nat) (obj : S3Object) : Nat × Nat × Nat :=
  (acc.1 + obj.size, acc.2.1 + 1,
    if obj.lastModified > acc.2.2 then obj.lastModified else acc.2.2)

/-- Per-page step: objects are folded only when the page has a `'Contents'`
key. -/
def pageStep (acc : Nat × Nat × Nat) (page : Page) : Nat × Nat × Nat :=
  match page.contents with
  | none => acc
  | some objs => objs.foldl objStep acc

/-- The pagination loop of `collect_bucket_metrics`, starting from
`total_size = 0`, `total_objects = 0`, `latest_modified = 0`. -/
def aggregateListing (pages : List Page) : Nat × Nat × Nat :=
  pages.foldl pageStep (0, 0, 0)

/-- `collect_bucket_metrics(bucket_name)` as a state transformer: strips the
name, returns the state unchanged for blank names, otherwise drains the
listing, updates the per-bucket gauges and writes the outcome entry into
`health_status['buckets']`; a `NoSuchBucket` exception yields the fixed
`'Bucket not found'` error entry, any other exception yields an entry with
its message. -/
def collect_bucket_metrics (store : String → ListingResult) (now : Nat)
    (bucketName : String) (st : ExporterState) : ExporterState :=
  let bucketName := strip bucketName
  if bucketName = "" then st
  else
    match store bucketName with
    | Except.ok pages =>
        let agg := aggregateListing pages
        let totalSize := agg.1
        let totalObjects := agg.2.1
        let latestModified := agg.2.2
        { st with
          gaugeBucketSize := setAssoc st.gaugeBucketSize bucketName totalSize
          gaugeObjectCount := setAssoc st.gaugeObjectCount bucketName totalObjects
          gaugeLastModified :=
            if latestModified > 0 then
              setAssoc st.gaugeLastModified bucketName latestModified
            else st.gaugeLastModified
          gaugeScrapeSuccess := setAssoc st.gaugeScrapeSuccess bucketName 1
          gaugeBucketHealth := setAssoc st.gaugeBucketHealth bucketName 1
          buckets := setAssoc st.buckets bucketName
            (BucketEntry.success totalObjects totalSize
              (if latestModified > 0 then some latestModified else none) now) }
    | Except.error StoreError.noSuchBucket =>
        { st with
          gaugeScrapeSuccess := setAssoc st.gaugeScrapeSuccess bucketName 0
          gaugeBucketHealth := setAssoc st.gaugeBucketHealth bucketName 0
          buckets := setAssoc st.buckets bucketName
            (BucketEntry.failure "Bucket not found" now) }
    | Except.error (StoreError.other msg) =>
        { st with
          gaugeScrapeSuccess := setAssoc st.gaugeScrapeSuccess bucketName 0
          gaugeBucketHealth := setAssoc st.gaugeBucketHealth bucketName 0
          buckets := setAssoc st.buckets bucketName
            (BucketEntry.failure msg now) }

/-- `bucket.get('success', False)` on an optional map entry
(`health_status['buckets'].get(name, {}).get('success', False)`). -/
def entrySuccess : Option BucketEntry → Bool
  | some (BucketEntry.success _ _ _ _) => true
  | _ => false

/-- Loop body of `collect_all_metrics`: collect one bucket, then clear
`all_success` when the (non-blank) bucket's entry is not a success. -/
def passStep (store : String → ListingResult) (now : Nat)
    (acc : ExporterState × Bool) (bucket : String) : ExporterState × Bool :=
  let st1 := collect_bucket_metrics store now bucket acc.1
  let bucketName := strip bucket
  (st1,
    if bucketName ≠ "" ∧ entrySuccess (lookupAssoc st1.buckets bucketName) = false then
      false
    else acc.2)

/-- `collect_all_metrics()`: one full pass over the configured bucket list,
then `health_status['healthy'] = all_success`,
`health_status['last_successful_scrape'] = now`, and the
`idrive_exporter_healthy` gauge set to 1 or 0. -/
def collect_all_metrics (store : String → ListingResult) (now : Nat)
    (buckets : List String) (st : ExporterState) : ExporterState :=
  let r := buckets.foldl (passStep store now) (st, true)
  { r.1 with
    healthy := r.2
    lastSuccessfulScrape := some now
    gaugeExporterHealth := if r.2 then 1 else 0 }

/-- `bucket.get('success', False)` on a present entry. -/
def entryIsSuccess : BucketEntry → Bool
  | BucketEntry.success _ _ _ _ => true
  | BucketEntry.failure _ _ => false

/-- The parts of the `GET /health` JSON response the claims are about:
status string, HTTP status code, the summary counters, and the echoed
`last_scrape` value. -/
structure HealthResponse where
  status : String
  httpCode : Nat
  totalBuckets : Nat
  healthyBuckets : Nat
  unhealthyBuckets : Nat
  lastScrape : Option Nat
  deriving DecidableEq, Repr

/-- `HealthHandler.do_GET` on path `/health`: recomputes
`all_buckets_healthy` from the per-bucket map (`False` when the map is
empty), derives the status string and 200/503 code from it, and counts
healthy/unhealthy entries for the summary. -/
def healthEndpoint (st : ExporterState) : HealthResponse :=
  let allBucketsHealthy :=
    if st.buckets.isEmpty then false
    else st.buckets.all (fun b => entryIsSuccess b.2)
  { status := if allBucketsHealthy then "healthy" else "unhealthy"
    httpCode := if allBucketsHealthy then 200 else 503
    totalBuckets := st.buckets.length
    healthyBuckets := (st.buckets.filter (fun b => entryIsSuccess b.2)).length
    unhealthyBuckets := (st.buckets.filter (fun b => !entryIsSuccess b.2)).length
    lastScrape := st.lastSuccessfulScrape }

/-- `BUCKETS = os.getenv('BUCKETS', '').split(',')`. -/
def parseBuckets (env : String) : List String :=
  (splitOnComma env.data).map String.mk

/-- The startup validation `if not BUCKETS or BUCKETS == ['']: exit(1)`:
`true` means the process exits. -/
def bucketsInvalid (bs : List String) : Bool := bs.isEmpty || bs == [""]

/-- `test_connection()`: a successful `list_buckets` call returns `True`
together with the warned-about configured names (stripped, non-blank, not
among the visible bucket names); a raising call returns `False`. -/
def test_connection (buckets : List String) (resp : Except String (List String)) :
    Bool × List String :=
  match resp with
  | Except.error _ => (false, [])
  | Except.ok availableBuckets =>
      let warnings := (buckets.map strip).filter
        (fun b => b != "" && !(availableBuckets.contains b))
      (true, warnings)

/-- What `main()` does right after the preflight check. -/
inductive StartupAction where
  | exitNonZero
  | startServers
  deriving DecidableEq, Repr

/-- The preflight gate in `main()`: `if not test_connection(): exit(1)`,
otherwise fall through to starting the HTTP servers. -/
def mainStartup (connOk : Bool) : StartupAction :=
  if connOk then StartupAction.startServers else StartupAction.exitNonZero

/-- Specification-side total of object sizes over a list of descriptors. -/
def sizeSum (objs : List S3Object) : Nat := (objs.map S3Object.size).sum

/-- Specification-side maximum of last-modified timestamps (0 for the empty
list). -/
def maxTs (objs : List S3Object) : Nat :=
  objs.foldr (fun o m => max o.lastModified m) 0

/-- The objects of one page (empty when the page has no `'Contents'` key). -/
def pageObjects (p : Page) : List S3Object := p.contents.getD []

/-- All object descriptors of a page sequence, in arrival order. -/
def allObjects (pages : List Page) : List S3Object :=
  pages.foldr (fun p acc => pageObjects p ++ acc) []

/-- The `health_status['buckets']` entry `collect_bucket_metrics` writes for
a given listing result (a derived characterisation, proved below; the
embedding itself is `collect_bucket_metrics`). -/
def collectOutcome (res : ListingResult) (now : Nat) : BucketEntry :=
  match res with
  | Except.ok pages =>
      BucketEntry.success (allObjects pages).length (sizeSum (allObjects pages))
        (if 0 < maxTs (allObjects pages) then some (maxTs (allObjects pages)) else none) now
  | Except.error StoreError.noSuchBucket => BucketEntry.failure "Bucket not found" now
  | Except.error (StoreError.other msg) => BucketEntry.failure msg now

/-- Whether a listing result is a drained page sequence (no exception). -/
def listingOk {ε α : Type} : Except ε α → Bool
  | Except.ok _ => true
  | Except.error _ => false

/-! Helper lemmas -/

theorem if_gt_eq_max (c x : Nat) : (if x > c then x else c) = max c x := by
  rcases Nat.lt_or_ge c x with h | h
  · rw [if_pos h, Nat.max_eq_right (Nat.le_of_lt h)]
  · rw [if_neg (Nat.not_lt.mpr h), Nat.max_eq_left h]

theorem sizeSum_nil : sizeSum [] = 0 := rfl

theorem sizeSum_cons (o : S3Object) (l : List S3Object) :
    sizeSum (o :: l) = o.size + sizeSum l := by
  simp [sizeSum]

theorem maxTs_nil : maxTs [] = 0 := rfl

theorem maxTs_cons (o : S3Object) (l : List S3Object) :
    maxTs (o :: l) = max o.lastModified (maxTs l) := rfl

theorem sizeSum_append (l₁ l₂ : List S3Object) :
    sizeSum (l₁ ++ l₂) = sizeSum l₁ + sizeSum l₂ := by
  simp [sizeSum]

theorem maxTs_append (l₁ l₂ : List S3Object) :
    maxTs (l₁ ++ l₂) = max (maxTs l₁) (maxTs l₂) := by
  induction l₁ with
  | nil => simp [maxTs_nil, maxTs]
  | cons o l ih =>
      rw [List.cons_append, maxTs_cons, maxTs_cons, ih, Nat.max_assoc]

theorem foldl_objStep (objs : List S3Object) (a b c : Nat) :
    objs.foldl objStep (a, b, c)
      = (a + sizeSum objs, b + objs.length, max c (maxTs objs)) := by
  induction objs generalizing a b c with
  | nil => simp [sizeSum_nil, maxTs_nil]
  | cons o rest ih =>
      rw [List.foldl_cons]
      show List.foldl objStep
        (a + o.size, b + 1, if o.lastModified > c then o.lastModified else c) rest = _
      rw [ih, if_gt_eq_max, sizeSum_cons, maxTs_cons]
      refine Prod.ext ?_ (Prod.ext ?_ ?_)
      · show a + o.size + sizeSum rest = a + (o.size + sizeSum rest)
        omega
      · show b + 1 + rest.length = b + (o :: rest).length
        simp [List.length_cons]
        omega
      · show max (max c o.lastModified) (maxTs rest)
          = max c (max o.lastModified (maxTs rest))
        rw [Nat.max_assoc]

theorem allObjects_nil : allObjects [] = [] := rfl

theorem allObjects_cons (p : Page) (pages : List Page) :
    allObjects (p :: pages) = pageObjects p ++ allObjects pages := rfl

theorem foldl_pageStep (pages : List Page) (a b c : Nat) :
    pages.foldl pageStep (a, b, c)
      = (a + sizeSum (allObjects pages), b + (allObjects pages).length,
         max c (maxTs (allObjects pages))) := by
  induction pages generalizing a b c with
  | nil => simp [allObjects_nil, sizeSum_nil, maxTs_nil]
  | cons p rest ih =>
      rw [List.foldl_cons, allObjects_cons]
      cases hp : p.contents with
      | none =>
          have hpp : pageObjects p = [] := by simp [pageObjects, hp]
          have hstep : pageStep (a, b, c) p = (a, b, c) := by
            simp [pageStep, hp]
          rw [hstep, ih, hpp]
          simp
      | some objs =>
          have hpp : pageObjects p = objs := by simp [pageObjects, hp]
          have hstep : pageStep (a, b, c) p = objs.foldl objStep (a, b, c) := by
            simp [pageStep, hp]
          rw [hstep, foldl_objStep, ih, hpp, sizeSum_append, List.length_append,
            maxTs_append]
          simp only [Prod.mk.injEq]
          refine ⟨by omega, by omega, by rw [Nat.max_assoc]⟩

theorem aggregateListing_eq (pages : List Page) :
    aggregateListing pages
      = (sizeSum (allObjects pages), (allObjects pages).length,
         maxTs (allObjects pages)) := by
  rw [aggregateListing, foldl_pageStep]
  simp

theorem lookup_setAssoc_self {α : Type} (m : List (String × α)) (k : String) (v : α) :
    lookupAssoc (setAssoc m k v) k = some v := by
  induction m with
  | nil => simp [setAssoc, lookupAssoc]
  | cons p rest ih =>
      obtain ⟨pk, pv⟩ := p
      by_cases h : pk = k
      · simp [setAssoc, lookupAssoc, h]
      · simp [setAssoc, lookupAssoc, h, ih]

theorem lookup_setAssoc_other {α : Type} (m : List (String × α)) (k k' : String)
    (v : α) (h : k' ≠ k) :
    lookupAssoc (setAssoc m k v) k' = lookupAssoc m k' := by
  induction m with
  | nil =>
      simp only [setAssoc, lookupAssoc]
      rw [if_neg (Ne.symm h)]
  | cons p rest ih =>
      obtain ⟨pk, pv⟩ := p
      by_cases hpk : pk = k
      · subst hpk
        simp only [setAssoc, if_pos rfl, lookupAssoc]
        rw [if_neg (Ne.symm h), if_neg (Ne.symm h)]
      · simp only [setAssoc, lookupAssoc]
        rw [if_neg hpk]
        simp only [lookupAssoc]
        by_cases hpk' : pk = k'
        · rw [if_pos hpk', if_pos hpk']
        · rw [if_neg hpk', if_neg hpk', ih]

theorem collect_blank (store : String → ListingResult) (now : Nat)
    (name : String) (st : ExporterState) (h : strip name = "") :
    collect_bucket_metrics store now name st = st := by
  unfold collect_bucket_metrics
  simp [h]

theorem collect_lookup_self (store : String → ListingResult) (now : Nat)
    (name : String) (st : ExporterState) (h : strip name ≠ "") :
    lookupAssoc (collect_bucket_metrics store now name st).buckets (strip name)
      = some (collectOutcome (store (strip name)) now) := by
  unfold collect_bucket_metrics
  rw [if_neg h]
  cases hres : store (strip name) with
  | ok pages =>
      simp only [collectOutcome]
      rw [show (aggregateListing pages).1 = sizeSum (allObjects pages) by
            rw [aggregateListing_eq],
          show (aggregateListing pages).2.1 = (allObjects pages).length by
            rw [aggregateListing_eq],
          show (aggregateListing pages).2.2 = maxTs (allObjects pages) by
            rw [aggregateListing_eq]]
      exact lookup_setAssoc_self _ _ _
  | error e =>
      cases e with
      | noSuchBucket => exact lookup_setAssoc_self _ _ _
      | other msg => exact lookup_setAssoc_self _ _ _

theorem collect_lookup_other (store : String → ListingResult) (now : Nat)
    (name other : String) (st : ExporterState) (h : other ≠ strip name) :
    lookupAssoc (collect_bucket_metrics store now name st).buckets other
      = lookupAssoc st.buckets other := by
  unfold collect_bucket_metrics
  by_cases hb : strip name = ""
  · simp [hb]
  · rw [if_neg hb]
    cases store (strip name) with
    | ok pages => exact lookup_setAssoc_other _ _ _ _ h
    | error e =>
        cases e with
        | noSuchBucket => exact lookup_setAssoc_other _ _ _ _ h
        | other msg => exact lookup_setAssoc_other _ _ _ _ h

theorem collect_preserves (store : String → ListingResult) (now : Nat)
    (name : String) (st : ExporterState) :
    (collect_bucket_metrics store now name st).healthy = st.healthy
  ∧ (collect_bucket_metrics store now name st).lastSuccessfulScrape
      = st.lastSuccessfulScrape
  ∧ (collect_bucket_metrics store now name st).gaugeExporterHealth
      = st.gaugeExporterHealth := by
  unfold collect_bucket_metrics
  by_cases hb : strip name = ""
  · simp [hb]
  · rw [if_neg hb]
    cases store (strip name) with
    | ok pages => exact ⟨rfl, rfl, rfl⟩
    | error e =>
        cases e with
        | noSuchBucket => exact ⟨rfl, rfl, rfl⟩
        | other msg => exact ⟨rfl, rfl, rfl⟩

theorem entrySuccess_collectOutcome (res : ListingResult) (now : Nat) :
    entrySuccess (some (collectOutcome res now)) = listingOk res := by
  cases res with
  | ok pages => rfl
  | error e => cases e <;> rfl

theorem all_pointwise_eq {α : Type} {l : List α} {f g : α → Bool}
    (h : ∀ x ∈ l, f x = g x) : l.all f = l.all g := by
  induction l with
  | nil => rfl
  | cons x rest ih =>
      simp only [List.all_cons]
      rw [h x (List.mem_cons_self x rest),
        ih (fun y hy => h y (List.mem_cons_of_mem x hy))]

theorem passFold_snd (store : String → ListingResult) (now : Nat)
    (buckets : List String) (acc : ExporterState × Bool) :
    (buckets.foldl (passStep store now) acc).2
      = (acc.2 && buckets.all (fun x => strip x == "" || listingOk (store (strip x)))) := by
  induction buckets generalizing acc with
  | nil => simp
  | cons x rest ih =>
      rw [List.foldl_cons, List.all_cons, ih]
      by_cases hx : strip x = ""
      · have hsnd : (passStep store now acc x).2 = acc.2 := by
          simp [passStep, hx]
        rw [hsnd]
        simp [hx]
      · have hsucc : entrySuccess
            (lookupAssoc (collect_bucket_metrics store now x acc.1).buckets (strip x))
            = listingOk (store (strip x)) := by
          rw [collect_lookup_self store now x acc.1 hx, entrySuccess_collectOutcome]
        have hxb : (strip x == "") = false := by simp [hx]
        cases hok : listingOk (store (strip x)) with
        | true =>
            have hsnd : (passStep store now acc x).2 = acc.2 := by
              simp [passStep, hsucc, hok, hx]
            rw [hsnd]
            simp [hxb, hok]
        | false =>
            have hsnd : (passStep store now acc x).2 = false := by
              simp [passStep, hsucc, hok, hx]
            rw [hsnd]
            simp [hxb, hok]

theorem passFold_lookup (store : String → ListingResult) (now : Nat)
    (buckets : List String) (acc : ExporterState × Bool) (name : String)
    (hname : name ≠ "") :
    lookupAssoc ((buckets.foldl (passStep store now) acc).1).buckets name
      = if buckets.any (fun x => strip x == name) then
          some (collectOutcome (store name) now)
        else lookupAssoc acc.1.buckets name := by
  induction buckets generalizing acc with
  | nil => simp
  | cons x rest ih =>
      rw [List.foldl_cons, List.any_cons, ih]
      have hfst : (passStep store now acc x).1
          = collect_bucket_metrics store now x acc.1 := rfl
      by_cases hx : strip x = name
      · have hxb : (strip x == name) = true := by simp [hx]
        have hlook : lookupAssoc (passStep store now acc x).1.buckets name
            = some (collectOutcome (store name) now) := by
          rw [hfst, ← hx]
          exact collect_lookup_self store now x acc.1 (hx ▸ hname)
        rw [hlook, hxb]
        simp
      · have hxb : (strip x == name) = false := by simp [hx]
        have hlook : lookupAssoc (passStep store now acc x).1.buckets name
            = lookupAssoc acc.1.buckets name := by
          rw [hfst]
          by_cases hblank : strip x = ""
          · rw [collect_blank store now x acc.1 hblank]
          · exact collect_lookup_other store now x name acc.1
              (fun hh => hx hh.symm)
        rw [hlook, hxb]
        simp

/-! Claim theorems -/

/-- C1: for every listing (any sequence of pages, each with zero or more
object descriptors) returned for a non-blank bucket name, the collector
records a Success entry whose object count is the total number of
descriptors across all pages and whose byte size is the exact sum of their
sizes — page boundaries are transparent; empty or all-empty page sequences
give count 0 and size 0 (then `allObjects pages = []`). -/
theorem C1_pagination_aggregate (store : String → ListingResult) (now : Nat)
    (name : String) (st : ExporterState) (pages : List Page)
    (h : strip name ≠ "") (hs : store (strip name) = Except.ok pages) :
    ∃ lm, lookupAssoc (collect_bucket_metrics store now name st).buckets (strip name)
      = some (BucketEntry.success (allObjects pages).length
          (sizeSum (allObjects pages)) lm now) := by
  refine ⟨if 0 < maxTs (allObjects pages) then some (maxTs (allObjects pages)) else none, ?_⟩
  rw [collect_lookup_self store now name st h, hs]
  rfl

/-- Witness for C1: bucket `alpha` with objects of sizes 10, 20, 30 split
over three pages (one lacking a `Contents` key) yields count 3 and size 60. -/
theorem C1_pagination_aggregate_witness :
    ∃ lm, lookupAssoc (collect_bucket_metrics
        (fun _ => Except.ok
          [⟨some [⟨10, 100⟩]⟩, ⟨none⟩, ⟨some [⟨20, 300⟩, ⟨30, 200⟩]⟩])
        7 "alpha" initialState).buckets "alpha"
      = some (BucketEntry.success 3 60 lm 7) := by
  exact C1_pagination_aggregate
    (fun _ => Except.ok
      [⟨some [⟨10, 100⟩]⟩, ⟨none⟩, ⟨some [⟨20, 300⟩, ⟨30, 200⟩]⟩])
    7 "alpha" initialState
    [⟨some [⟨10, 100⟩]⟩, ⟨none⟩, ⟨some [⟨20, 300⟩, ⟨30, 200⟩]⟩]
    (by decide) rfl

/-- C2 counterexample: an object whose last-modified timestamp is exactly
epoch 0 is counted (count 1) but the recorded last-modified value is
absent (`none`, rendered `"N/A"`), because the code initialises its running
maximum to the sentinel 0 and only publishes strictly positive values;
this contradicts "never absent when at least one object exists". -/
theorem C2_zero_timestamp_counterexample :
    lookupAssoc (collect_bucket_metrics
        (fun _ => Except.ok [⟨some [⟨7, 0⟩]⟩]) 3 "b" initialState).buckets "b"
      = some (BucketEntry.success 1 7 none 3) := by
  decide

/-- C2 (amended): the recorded last-modified value equals the maximum
timestamp over all objects seen whenever that maximum is positive, and is
absent when no object was seen or every seen object has timestamp 0 (the
code uses 0 as its absence sentinel), so it can be absent with a nonzero
count. -/
theorem C2_latest_modified_amended (store : String → ListingResult) (now : Nat)
    (name : String) (st : ExporterState) (pages : List Page)
    (h : strip name ≠ "") (hs : store (strip name) = Except.ok pages) :
    lookupAssoc (collect_bucket_metrics store now name st).buckets (strip name)
      = some (BucketEntry.success (allObjects pages).length
          (sizeSum (allObjects pages))
          (if 0 < maxTs (allObjects pages) then some (maxTs (allObjects pages)) else none)
          now) := by
  rw [collect_lookup_self store now name st h, hs]
  rfl

/-- Witness for C2 (amended): timestamps 100, 300, 200 across two pages
give latest-modified 300. -/
theorem C2_latest_modified_amended_witness :
    lookupAssoc (collect_bucket_metrics
        (fun _ => Except.ok [⟨some [⟨10, 100⟩, ⟨20, 300⟩]⟩, ⟨some [⟨30, 200⟩]⟩])
        7 "alpha" initialState).buckets "alpha"
      = some (BucketEntry.success 3 60 (some 300) 7) := by
  exact C2_latest_modified_amended
    (fun _ => Except.ok [⟨some [⟨10, 100⟩, ⟨20, 300⟩]⟩, ⟨some [⟨30, 200⟩]⟩])
    7 "alpha" initialState
    [⟨some [⟨10, 100⟩, ⟨20, 300⟩]⟩, ⟨some [⟨30, 200⟩]⟩]
    (by decide) rfl

/-- C3 counterexample: a pass over a bucket list with zero non-blank names
(here `[""]`, which startup validation does not reject when it arises from
e.g. `BUCKETS=,`) sets the stored `healthy` flag to `true`, not `false`:
`all_success` starts `True` and no bucket clears it. -/
theorem C3_blank_pass_counterexample :
    (collect_all_metrics (fun _ => Except.ok []) 0 [""] initialState).healthy
      = true := by
  decide

/-- C3 (amended): after a pass, the stored `healthy` flag is true iff every
configured non-blank bucket's recorded outcome is a Success; a pass over
zero non-blank bucket names leaves it vacuously true (only the `/health`
endpoint, which recomputes health, treats an empty map as unhealthy). -/
theorem C3_overall_health_amended (store : String → ListingResult) (now : Nat)
    (buckets : List String) (st : ExporterState) :
    (collect_all_metrics store now buckets st).healthy
      = buckets.all (fun x => strip x == "" ||
          entrySuccess (lookupAssoc
            (collect_all_metrics store now buckets st).buckets (strip x))) := by
  unfold collect_all_metrics
  simp only
  rw [passFold_snd]
  simp only [Bool.true_and]
  apply all_pointwise_eq
  intro x hmem
  by_cases hx : strip x = ""
  · simp [hx]
  · have hxb : (strip x == "") = false := by simp [hx]
    rw [hxb]
    have hany : (buckets.any (fun y => strip y == strip x)) = true :=
      List.any_eq_true.mpr ⟨x, hmem, by simp⟩
    rw [passFold_lookup store now buckets (st, true) (strip x) hx, hany]
    simp [entrySuccess_collectOutcome]

/-- C4 counterexample: in the startup state the stored `healthy` flag is
`True` (line `'healthy': True`) while the per-bucket map is empty, and
`GET /health` answers 503 — so the endpoint does return 503 while
`overall_healthy` is true. -/
theorem C4_initial_state_counterexample :
    initialState.healthy = true
  ∧ (healthEndpoint initialState).httpCode = 503 := by
  decide

/-- C4 (amended): `GET /health` answers 200 exactly when the per-bucket map
is non-empty and every recorded entry is a Success, and 503 otherwise (in
particular 503 with status `"unhealthy"` when no bucket was ever recorded);
the code recomputes this from the map and never reads the stored
`healthy` flag, so the response can disagree with that flag. -/
theorem C4_health_code_amended (st : ExporterState) :
    ((healthEndpoint st).httpCode = 200 ∨ (healthEndpoint st).httpCode = 503)
  ∧ ((healthEndpoint st).httpCode
      = if !st.buckets.isEmpty && st.buckets.all (fun b => entryIsSuccess b.2)
        then 200 else 503)
  ∧ ((healthEndpoint st).status
      = if !st.buckets.isEmpty && st.buckets.all (fun b => entryIsSuccess b.2)
        then "healthy" else "unhealthy") := by
  unfold healthEndpoint
  cases hemp : st.buckets.isEmpty with
  | true => simp [hemp]
  | false =>
      cases hall : st.buckets.all (fun b => entryIsSuccess b.2) with
      | true => simp [hemp, hall]
      | false => simp [hemp, hall]

/-- C5: for a non-blank bucket name, a `NoSuchBucket` exception from the
store makes the collector record the fixed `"Bucket not found"` Failure
entry, and any store exception whatsoever results in a recorded Failure
entry (the collector returns an outcome, it never lets the exception
escape — both `except` arms of the source produce an entry). -/
theorem C5_missing_bucket_failure (store : String → ListingResult) (now : Nat)
    (name : String) (st : ExporterState) (h : strip name ≠ "") :
    (store (strip name) = Except.error StoreError.noSuchBucket →
      lookupAssoc (collect_bucket_metrics store now name st).buckets (strip name)
        = some (BucketEntry.failure "Bucket not found" now))
  ∧ (∀ e : StoreError, store (strip name) = Except.error e →
      ∃ msg, lookupAssoc (collect_bucket_metrics store now name st).buckets (strip name)
        = some (BucketEntry.failure msg now)) := by
  constructor
  · intro hs
    rw [collect_lookup_self store now name st h, hs]
    rfl
  · intro e hs
    cases e with
    | noSuchBucket =>
        exact ⟨"Bucket not found",
          by rw [collect_lookup_self store now name st h, hs]; rfl⟩
    | other msg =>
        exact ⟨msg, by rw [collect_lookup_self store now name st h, hs]; rfl⟩

/-- Witness for C5: a store raising `NoSuchBucket` for bucket `beta` yields
the fixed `"Bucket not found"` Failure entry. -/
theorem C5_missing_bucket_failure_witness :
    lookupAssoc (collect_bucket_metrics
        (fun _ => Except.error StoreError.noSuchBucket) 4 "beta"
        initialState).buckets "beta"
      = some (BucketEntry.failure "Bucket not found" 4) :=
  (C5_missing_bucket_failure _ 4 "beta" initialState (by decide)).1 rfl

/-- C6 counterexample: the environment value `","` splits to `["", ""]`,
which passes the startup validation (`not BUCKETS or BUCKETS == ['']`)
even though it yields zero non-blank entries — so the validation does not
guarantee at least one non-blank bucket, and the blank entries stay in the
list. -/
theorem C6_blank_list_counterexample :
    bucketsInvalid (parseBuckets ",") = false
  ∧ (parseBuckets ",").all (fun b => strip b == "") = true := by
  decide

/-- C6 (amended): startup exits when `BUCKETS` is unset or empty (the split
of `""` is `[""]`, which the validation rejects), but an all-blank list
such as the split of `","` is accepted; blank entries are not filtered out
of the list — instead the collector skips them at use time, leaving the
state untouched for any blank name. -/
theorem C6_buckets_validation_amended (store : String → ListingResult)
    (now : Nat) (name : String) (st : ExporterState) (h : strip name = "") :
    bucketsInvalid (parseBuckets "") = true
  ∧ collect_bucket_metrics store now name st = st := by
  refine ⟨by decide, ?_⟩
  exact collect_blank store now name st h

/-- Witness for C6 (amended): the blank name `" "` is skipped. -/
theorem C6_buckets_validation_amended_witness :
    bucketsInvalid (parseBuckets "") = true
  ∧ collect_bucket_metrics (fun _ => Except.ok []) 0 " " initialState
      = initialState :=
  C6_buckets_validation_amended _ 0 " " initialState (by decide)

/-- C7: the preflight check returns `False` exactly when the single
`list_buckets` call raises, and `True` whenever it succeeds — whatever the
configured names and whether or not they appear among the visible buckets
(absence only contributes a warning); `main` exits before starting any
server when the check is `False` and proceeds to start the servers when it
is `True`. -/
theorem C7_preflight_connectivity (buckets : List String)
    (resp : Except String (List String)) :
    ((test_connection buckets resp).1 = listingOk resp)
  ∧ (mainStartup (test_connection buckets resp).1
      = if listingOk resp then StartupAction.startServers
        else StartupAction.exitNonZero) := by
  cases resp <;> simp [test_connection, listingOk, mainStartup]

/-- C8 counterexample: collecting bucket `b` writes its entry into the
shared health record and sets the per-bucket scrape-success gauge — the
collector mutates shared state directly, it is not effect-free. -/
theorem C8_collector_mutates_counterexample :
    lookupAssoc (collect_bucket_metrics (fun _ => Except.ok []) 0 "b"
        initialState).buckets "b"
      = some (BucketEntry.success 0 0 none 0)
  ∧ lookupAssoc initialState.buckets "b" = none
  ∧ lookupAssoc (collect_bucket_metrics (fun _ => Except.ok []) 0 "b"
        initialState).gaugeScrapeSuccess "b"
      = some 1
  ∧ lookupAssoc initialState.gaugeScrapeSuccess "b" = none := by
  decide

/-- C8 (amended): `collect_bucket_metrics` itself writes the outcome entry
and the per-bucket gauges into shared state, but its effects are confined
to the collected bucket: the stored `healthy` flag, the pass timestamp,
the overall exporter-health gauge and every other bucket's entry are left
unchanged, and the entry it records for the bucket is a pure function of
the bucket name, the listing result and the clock — independent of the
prior state. -/
theorem C8_collector_scope_amended (store : String → ListingResult) (now : Nat)
    (name other : String) (st st' : ExporterState)
    (hn : strip name ≠ "") (h : other ≠ strip name) :
    (collect_bucket_metrics store now name st).healthy = st.healthy
  ∧ (collect_bucket_metrics store now name st).lastSuccessfulScrape
      = st.lastSuccessfulScrape
  ∧ (collect_bucket_metrics store now name st).gaugeExporterHealth
      = st.gaugeExporterHealth
  ∧ lookupAssoc (collect_bucket_metrics store now name st).buckets other
      = lookupAssoc st.buckets other
  ∧ lookupAssoc (collect_bucket_metrics store now name st).buckets (strip name)
      = lookupAssoc (collect_bucket_metrics store now name st').buckets (strip name) := by
  obtain ⟨h1, h2, h3⟩ := collect_preserves store now name st
  refine ⟨h1, h2, h3, collect_lookup_other store now name other st h, ?_⟩
  rw [collect_lookup_self store now name st hn,
    collect_lookup_self store now name st' hn]

/-- Witness for C8 (amended): collecting `b` from two different prior
states (differing in the `healthy` flag) leaves `c` and the global fields
alone and records the same entry for `b`. -/
theorem C8_collector_scope_amended_witness :
    (collect_bucket_metrics (fun _ => Except.ok []) 0 "b" initialState).healthy
      = initialState.healthy
  ∧ (collect_bucket_metrics (fun _ => Except.ok []) 0 "b"
        initialState).lastSuccessfulScrape = initialState.lastSuccessfulScrape
  ∧ (collect_bucket_metrics (fun _ => Except.ok []) 0 "b"
        initialState).gaugeExporterHealth = initialState.gaugeExporterHealth
  ∧ lookupAssoc (collect_bucket_metrics (fun _ => Except.ok []) 0 "b"
        initialState).buckets "c"
      = lookupAssoc initialState.buckets "c"
  ∧ lookupAssoc (collect_bucket_metrics (fun _ => Except.ok []) 0 "b"
        initialState).buckets "b"
      = lookupAssoc (collect_bucket_metrics (fun _ => Except.ok []) 0 "b"
          flippedState).buckets "b" :=
  C8_collector_scope_amended _ 0 "b" "c" initialState flippedState
    (by decide) (by decide)

/-- C10: the status string, HTTP code and summary counters of `GET /health`
are a function of the per-bucket map alone — two states with equal maps
yield identical values, whatever their stored `healthy` flags, pass
timestamps or gauge values. -/
theorem C10_endpoint_depends_only_on_map (s₁ s₂ : ExporterState)
    (h : s₁.buckets = s₂.buckets) :
    (healthEndpoint s₁).status = (healthEndpoint s₂).status
  ∧ (healthEndpoint s₁).httpCode = (healthEndpoint s₂).httpCode
  ∧ (healthEndpoint s₁).totalBuckets = (healthEndpoint s₂).totalBuckets
  ∧ (healthEndpoint s₁).healthyBuckets = (healthEndpoint s₂).healthyBuckets
  ∧ (healthEndpoint s₁).unhealthyBuckets = (healthEndpoint s₂).unhealthyBuckets := by
  unfold healthEndpoint
  rw [h]
  exact ⟨rfl, rfl, rfl, rfl, rfl⟩

/-- Witness for C10: the startup state and a state with the opposite stored
flag and a pass timestamp, both with an empty map, answer identically. -/
theorem C10_endpoint_depends_only_on_map_witness :
    (healthEndpoint initialState).status = (healthEndpoint flippedState).status
  ∧ (healthEndpoint initialState).httpCode
      = (healthEndpoint flippedState).httpCode
  ∧ (healthEndpoint initialState).totalBuckets
      = (healthEndpoint flippedState).totalBuckets
  ∧ (healthEndpoint initialState).healthyBuckets
      = (healthEndpoint flippedState).healthyBuckets
  ∧ (healthEndpoint initialState).unhealthyBuckets
      = (healthEndpoint flippedState).unhealthyBuckets :=
  C10_endpoint_depends_only_on_map initialState flippedState rfl

end IdriveExporter
